import Mathlib

/-!
Shallow embedding of the loki storage monitor (`scripts/loki-monitor.py`) and
the dashboard-fixing script (`fix_dashboard.py`), with theorems settling the
spec claims about them.

Conventions of the embedding:
* Python ints are `Nat`/`Int`; byte sizes and status codes are `Nat`.
* Python floats that hold exact-integer-scaled quantities are modelled as `ℚ`;
  `int(x)` truncation of a non-negative value is `Int.floor`/`Nat` division.
* Effectful calls (HTTP requests, clock reads, file writes) take their outcome
  from an explicit environment record, and the functions additionally return
  the list of observable events (log lines, requests, gauge writes, sleeps)
  in program order.
* Clock readings are epoch seconds (`ℤ`), matching the one-second granularity
  of the `%Y-%m-%dT%H:%M:%SZ` timestamps put into the delete payload.
-/

namespace LokiMonitor

/-- Outcome of one HTTP request as seen by the caller: either a response with
a status code, or a raised exception. -/
inductive ReqResult where
  | status (code : Nat)
  | exn
  deriving DecidableEq, Repr

/-- Prometheus metric state owned by the monitor process: the four gauges set
by `update_metrics` and the two counters touched by `trigger_cleanup`. -/
structure Metrics where
  dataSizeBytes : ℚ
  dataSizeGb : ℚ
  maxSizeBytes : ℚ
  usagePercent : ℚ
  cleanupOperations : Nat
  cleanupErrors : Nat
  deriving DecidableEq, Repr

/-- Observable events of a run, in program order. -/
inductive Event where
  | logInfo (msg : String)
  | logWarning (msg : String)
  | logError (msg : String)
  | logDebug (msg : String)
  | httpGetReady
  | httpPostDelete (startSec endSec : ℤ)
  | httpPostCompact
  | setGauge (name : String) (value : ℚ)
  | writeMetricsFile (sizeBytes : ℚ) (sizeGb : ℚ) (maxBytes : ℚ) (usagePct : ℚ)
  | runCleanupCall
  | sleep (seconds : Nat)
  deriving DecidableEq, Repr

/-- Health check `is_loki_healthy`: GET `/ready` with a 10s timeout; healthy iff the
request returned status 200; any exception yields `false`. -/
def is_loki_healthy (r : ReqResult) : Bool :=
  match r with
  | .status code => code == 200
  | .exn => false

/-- Test `cleanup_response.status_code in [200, 202, 204]`. -/
def acceptableStatus (code : Nat) : Bool :=
  code == 200 || code == 202 || code == 204

/-- Environment for one `trigger_cleanup` call: health-probe outcome, the two
successive `datetime.now()` readings (epoch seconds; `tEnd` is read first and
used for `end_date`, `tStart` second and used for `start_date`), and the
outcomes of the delete and compaction requests. -/
structure CleanupEnv where
  readyResult : ReqResult
  tEnd : ℤ
  tStart : ℤ
  deleteResult : ReqResult
  compactResult : ReqResult
  deriving DecidableEq, Repr

/-- Seconds in a day. -/
def daySec : ℤ := 86400

/-- Cleanup `trigger_cleanup`: health-gate, compute the window
(`end_date = now() - 3 days`, then `start_date = now() - 7 days` from a second
clock read), POST the delete, on an acceptable status best-effort POST the
compaction and bump the operations counter, otherwise bump the errors
counter.  Returns (result, metrics, events). -/
def trigger_cleanup (env : CleanupEnv) (m : Metrics) : Bool × Metrics × List Event :=
  if is_loki_healthy env.readyResult = false then
    (false, m, [.httpGetReady, .logError "Loki is not healthy, skipping cleanup"])
  else
    let endDate := env.tEnd - 3 * daySec
    let startDate := env.tStart - 7 * daySec
    let evs0 : List Event :=
      [.httpGetReady, .logInfo "Triggering cleanup for period",
       .httpPostDelete startDate endDate]
    match env.deleteResult with
    | .exn =>
        (false, { m with cleanupErrors := m.cleanupErrors + 1 },
         evs0 ++ [.logError "Error during cleanup"])
    | .status code =>
        if acceptableStatus code then
          let compactEvs : List Event :=
            match env.compactResult with
            | .status _ => [.httpPostCompact, .logInfo "Compaction triggered"]
            | .exn => [.httpPostCompact, .logWarning "Compaction trigger failed"]
          (true, { m with cleanupOperations := m.cleanupOperations + 1 },
           evs0 ++ [.logInfo "Cleanup API response"] ++ compactEvs)
        else
          (false, { m with cleanupErrors := m.cleanupErrors + 1 },
           evs0 ++ [.logError "Cleanup failed"])

/-- The delete-request windows (start, end) occurring in an event list. -/
def deleteWindows (evs : List Event) : List (ℤ × ℤ) :=
  evs.filterMap fun e =>
    match e with
    | .httpPostDelete s en => some (s, en)
    | _ => none

/-- Round-half-to-even to an integer, as Python's `round` does. -/
def roundHalfEven (x : ℚ) : ℤ :=
  if x - ⌊x⌋ < 1 / 2 then ⌊x⌋
  else if 1 / 2 < x - ⌊x⌋ then ⌊x⌋ + 1
  else if Even ⌊x⌋ then ⌊x⌋ else ⌊x⌋ + 1

/-- Conversion `bytes_to_gb`: `round(bytes / 1024**3, 2)`. -/
def bytes_to_gb (b : Nat) : ℚ :=
  (roundHalfEven ((b : ℚ) / (1024 * 1024 * 1024) * 100) : ℚ) / 100

/-- The usage-percent expression
`(current_size_bytes / max_size_bytes) * 100 if max_size_bytes > 0 else 0`. -/
def usagePercentCalc (sizeBytes maxBytes : Nat) : ℚ :=
  if 0 < maxBytes then ((sizeBytes : ℚ) / (maxBytes : ℚ)) * 100 else 0

/-- Export `update_metrics(current_size_bytes)`: recompute GB and percent, set the
four gauges, then attempt the metrics-file write whose failure is only
logged.  `writeOk` is the outcome of the file write. -/
def update_metrics (maxBytes : Nat) (writeOk : Bool) (m : Metrics)
    (sizeBytes : Nat) : Metrics × List Event :=
  let gb := bytes_to_gb sizeBytes
  let pct := usagePercentCalc sizeBytes maxBytes
  let m' := { m with
    dataSizeBytes := (sizeBytes : ℚ)
    dataSizeGb := gb
    maxSizeBytes := (maxBytes : ℚ)
    usagePercent := pct }
  let gaugeEvs : List Event :=
    [.setGauge "loki_data_size_bytes" (sizeBytes : ℚ),
     .setGauge "loki_data_size_gb" gb,
     .setGauge "loki_max_size_bytes" (maxBytes : ℚ),
     .setGauge "loki_usage_percent" pct]
  let fileEvs : List Event :=
    if writeOk then
      [.writeMetricsFile (sizeBytes : ℚ) gb (maxBytes : ℚ) pct,
       .logDebug "Metrics updated"]
    else
      [.writeMetricsFile (sizeBytes : ℚ) gb (maxBytes : ℚ) pct,
       .logError "Error saving metrics file"]
  (m', gaugeEvs ++ fileEvs)

mutual
/-- One entry reachable under the data directory as `rglob('*')` visits it:
a regular file of a given size, a directory with its child entries, or a
non-regular entry (symlink, socket, ...) for which `is_file()` is false. -/
inductive FSEntry where
  | file (size : Nat)
  | dir (children : FSList)
  | other
/-- A list of sibling filesystem entries. -/
inductive FSList where
  | nil
  | cons (e : FSEntry) (l : FSList)
end

mutual
/-- Sum of `st_size` over the entries of the subtree for which `is_file()`
holds — exactly what the loop body of `get_directory_size` accumulates. -/
def FSEntry.totalSize : FSEntry → Nat
  | .file size => size
  | .dir children => FSList.totalSize children
  | .other => 0
/-- Entry sizes `FSEntry.totalSize` summed over a sibling list. -/
def FSList.totalSize : FSList → Nat
  | .nil => 0
  | .cons e l => FSEntry.totalSize e + FSList.totalSize l
end

mutual
/-- The sizes of the regular files of a subtree, in traversal order. -/
def FSEntry.fileSizes : FSEntry → List Nat
  | .file size => [size]
  | .dir children => FSList.fileSizes children
  | .other => []
/-- Entry file sizes `FSEntry.fileSizes` concatenated over a sibling list. -/
def FSList.fileSizes : FSList → List Nat
  | .nil => []
  | .cons e l => FSEntry.fileSizes e ++ FSList.fileSizes l
end

/-- Measurement `get_directory_size`: if the traversal completes it returns the
accumulated size; if any exception is raised during traversal, the partial
sum is discarded, the error is logged and 0 is returned. -/
def get_directory_size (r : Except Unit FSList) : Nat :=
  match r with
  | .ok tree => FSList.totalSize tree
  | .error _ => 0

/-- Mutable per-process state of the monitor: the attributes set in
`__init__` (`max_size_bytes`, `threshold_bytes`), the metric state, and a
ghost counter of completed loop iterations. -/
structure MonitorState where
  maxSizeBytes : Nat
  thresholdBytes : Nat
  checkIntervalSec : Nat
  metrics : Metrics
  iterations : Nat
  deriving DecidableEq, Repr

/-- Truncation `int(max_size_bytes * CLEANUP_THRESHOLD_PERCENT / 100)` for non-negative
inputs: truncation of the exact quotient, i.e. `Nat` division. -/
def thresholdBytesCalc (maxBytes pct : Nat) : Nat :=
  maxBytes * pct / 100

/-- Truncation `int(MAX_SIZE_GB * 1024 * 1024 * 1024)` for a non-negative float. -/
def maxSizeBytesCalc (gb : ℚ) : Nat :=
  (⌊gb * (1024 * 1024 * 1024)⌋).toNat

/-- The metric state at process start: all gauges 0, both counters 0. -/
def initMetrics : Metrics :=
  { dataSizeBytes := 0, dataSizeGb := 0, maxSizeBytes := 0, usagePercent := 0,
    cleanupOperations := 0, cleanupErrors := 0 }

/-- Startup `LokiStorageMonitor.__init__`: derive `max_size_bytes` from the
configured GB value and `threshold_bytes` from it and the threshold percent,
once, at startup. -/
def monitorInit (gb : ℚ) (pct : Nat) (intervalSec : Nat) : MonitorState :=
  { maxSizeBytes := maxSizeBytesCalc gb
    thresholdBytes := thresholdBytesCalc (maxSizeBytesCalc gb) pct
    checkIntervalSec := intervalSec
    metrics := initMetrics
    iterations := 0 }

/-- Environment of one loop iteration: whether an exception escapes the
iteration body (caught by the loop-boundary handler), the outcome of the
directory traversal, of the metrics-file write, and of the cleanup calls. -/
structure IterEnv where
  bodyExn : Bool
  sizeResult : Except Unit FSList
  writeOk : Bool
  cleanupEnv : CleanupEnv

/-- One iteration of `monitor_loop`: measure, update metrics, compare to the
threshold, conditionally run the cleanup, and sleep until the next tick.  An
exception escaping the body is caught at the loop boundary and logged; the
trailing interval sleep sits outside the `try` and always runs. -/
def monitor_iter (env : IterEnv) (st : MonitorState) : MonitorState × List Event :=
  if env.bodyExn then
    ({ st with iterations := st.iterations + 1 },
     [.logError "Error in monitoring loop", .sleep st.checkIntervalSec])
  else
    let sizeBytes := get_directory_size env.sizeResult
    let um := update_metrics st.maxSizeBytes env.writeOk st.metrics sizeBytes
    if st.thresholdBytes < sizeBytes then
      let tc := trigger_cleanup env.cleanupEnv um.1
      let tail : List Event :=
        if tc.1 then [.logInfo "Cleanup completed successfully", .sleep 60]
        else [.logError "Cleanup failed"]
      ({ st with metrics := tc.2.1, iterations := st.iterations + 1 },
       [.logInfo "Current size"] ++ um.2 ++
         [.logWarning "Storage threshold exceeded", .runCleanupCall] ++
         tc.2.2 ++ tail ++ [.sleep st.checkIntervalSec])
    else
      ({ st with metrics := um.1, iterations := st.iterations + 1 },
       [.logInfo "Current size"] ++ um.2 ++
         [.logInfo "Storage usage within acceptable limits",
          .sleep st.checkIntervalSec])

/-- Run `n` iterations of the monitor loop under the iteration environments
`envs 0, envs 1, ...`, with the accumulated event trace. -/
def monitor_loop_run (envs : Nat → IterEnv) (st : MonitorState) :
    Nat → MonitorState × List Event
  | 0 => (st, [])
  | n + 1 =>
    let prev := monitor_loop_run envs st n
    let step := monitor_iter (envs n) prev.1
    (step.1, prev.2 ++ step.2)

/-- Number of `run_cleanup` invocations recorded in an event trace. -/
def countCleanupCalls (evs : List Event) : Nat :=
  (evs.filter fun e => e == .runCleanupCall).length

/-- Number of threshold-exceeded warnings recorded in an event trace. -/
def countThresholdWarnings (evs : List Event) : Nat :=
  (evs.filter fun e => e == .logWarning "Storage threshold exceeded").length

mutual
/-- The accumulated size of a subtree is the sum of its regular-file sizes. -/
theorem FSEntry.totalSize_eq_sum_entry (e : FSEntry) :
    e.totalSize = e.fileSizes.sum :=
  match e with
  | .file size => by simp [FSEntry.totalSize, FSEntry.fileSizes]
  | .dir children => by
      simp [FSEntry.totalSize, FSEntry.fileSizes,
        FSList.totalSize_eq_sum_list children]
  | .other => rfl
/-- The accumulated size of a sibling list is the sum of its file sizes. -/
theorem FSList.totalSize_eq_sum_list (l : FSList) :
    l.totalSize = l.fileSizes.sum :=
  match l with
  | .nil => rfl
  | .cons e l => by
      simp [FSList.totalSize, FSList.fileSizes, FSEntry.totalSize_eq_sum_entry e,
        FSList.totalSize_eq_sum_list l]
end

end LokiMonitor

namespace Dashboard

/-- Does `pre` start the character list `l`? -/
def startsWithChars : List Char → List Char → Bool
  | [], _ => true
  | _ :: _, [] => false
  | a :: as, b :: bs => a == b && startsWithChars as bs

/-- Does the character list `needle` occur contiguously in `hay`?  (Python's
`needle in hay` on strings.) -/
def occursChars (needle : List Char) : List Char → Bool
  | [] => needle.isEmpty
  | b :: bs => startsWithChars needle (b :: bs) || occursChars needle bs

/-- Python's `needle in hay` for strings. -/
def containsSub (hay needle : String) : Bool :=
  occursChars needle.data hay.data

/-- Set `AVAILABLE_METRICS`: the metric names that really exist. -/
def AVAILABLE_METRICS : List String :=
  ["active_tasks", "containers_monitored", "cpu_usage_percent",
   "dispatcher_queue_utilization", "files_monitored", "goroutines",
   "logs_per_second", "logs_processed_total", "logs_sent_total",
   "memory_usage_bytes", "processing_duration_seconds_bucket",
   "processing_duration_seconds_count", "processing_duration_seconds_sum",
   "processing_step_duration_seconds_bucket",
   "processing_step_duration_seconds_count",
   "processing_step_duration_seconds_sum", "queue_size",
   "sink_queue_utilization", "sink_send_duration_seconds_bucket",
   "sink_send_duration_seconds_count", "sink_send_duration_seconds_sum",
   "gc_runs_total", "go_memstats_alloc_bytes", "go_memstats_sys_bytes",
   "go_goroutines", "process_cpu_seconds_total", "up"]

/-- One entry of a panel's `targets` list: the optional `expr` field and an
opaque stand-in for all the other fields of the JSON object, which the script
never touches. -/
structure Target where
  expr : Option String
  restFields : Nat
  deriving DecidableEq, Repr

/-- The loop body of `fix_panel_targets` keeps a target iff its stripped
`expr` is non-empty and some available metric name occurs in it as a
substring. -/
def targetValid (t : Target) : Bool :=
  let e := (t.expr.getD "").trim
  !e.isEmpty && AVAILABLE_METRICS.any fun metric => containsSub e metric

mutual
/-- A dashboard panel: the fields the script reads or writes (`type`,
`targets`, `description`, nested `panels`), each `Option` to model presence
of the key in the JSON dict, plus an opaque stand-in for every other field. -/
inductive Panel where
  | mk (ptype : Option String) (targets : Option (List Target))
      (descr : Option String) (sub : Option PanelList) (restFields : Nat)
/-- A list of panels. -/
inductive PanelList where
  | nil
  | cons (p : Panel) (l : PanelList)
end

/-- The `type` field of a panel (`panel.get('type')`). -/
def Panel.ptype : Panel → Option String
  | .mk t _ _ _ _ => t

/-- The `targets` field of a panel, when the key is present. -/
def Panel.targets : Panel → Option (List Target)
  | .mk _ tg _ _ _ => tg

/-- The `description` field of a panel, when the key is present. -/
def Panel.descr : Panel → Option String
  | .mk _ _ d _ _ => d

/-- The nested `panels` field of a panel, when the key is present. -/
def Panel.sub : Panel → Option PanelList
  | .mk _ _ _ s _ => s

/-- The opaque remainder of a panel's JSON object. -/
def Panel.restFields : Panel → Nat
  | .mk _ _ _ _ r => r

/-- Number of panels in a panel list. -/
def PanelList.length : PanelList → Nat
  | .nil => 0
  | .cons _ l => 1 + l.length

/-- The note appended to the description of a typed panel left with no valid
targets. -/
def emptyPanelNote : String :=
  "\n\n⚠️ NOTA: Este painel não tem métricas disponíveis no momento. As métricas necessárias ainda não foram implementadas."

/-- Transform `fix_panel_targets`: return the panel unchanged when it has no `targets`
key; otherwise filter the targets, annotate the description when nothing
valid remains on a timeseries/stat/gauge panel, and store the filtered
list back. -/
def fix_panel_targets (p : Panel) : Panel :=
  match p with
  | .mk t none d s r => .mk t none d s r
  | .mk t (some ts) d s r =>
    let valid := ts.filter targetValid
    let d' :=
      if valid.isEmpty &&
          (t == some "timeseries" || t == some "stat" || t == some "gauge") then
        some ((d.getD "") ++ emptyPanelNote)
      else d
    .mk t (some valid) d' s r

mutual
/-- The per-panel branch of `process_panels`: a `row` panel with a nested
`panels` key has its sub-panels processed recursively; every other panel goes
through `fix_panel_targets`. -/
def process_panel : Panel → Panel
  | .mk t tg d (some s) r =>
    if t == some "row" then .mk t tg d (some (process_panels s)) r
    else fix_panel_targets (.mk t tg d (some s) r)
  | .mk t tg d none r => fix_panel_targets (.mk t tg d none r)
/-- Recursion `process_panels`: process every panel of the list, in order. -/
def process_panels : PanelList → PanelList
  | .nil => .nil
  | .cons p l => .cons (process_panel p) (process_panels l)
end

/-- How the `targets` field may change: either untouched, or (when present)
replaced by a sublist — a filtering never invents or reorders targets. -/
def TargetsFiltered (tg tg' : Option (List Target)) : Prop :=
  tg' = tg ∨ ∃ ts ts', tg = some ts ∧ tg' = some ts' ∧ ts'.Sublist ts

/-- How the `description` field may change: untouched, or annotated by
appending the explanatory note to the previous text (empty when absent). -/
def DescAnnotated (d d' : Option String) : Prop :=
  d' = d ∨ d' = some ((d.getD "") ++ emptyPanelNote)

mutual
/-- A panel evolves into another when `type`, the opaque remainder, and the
presence of `panels` are unchanged, and either the targets/description change
in the allowed ways with the nested panels untouched, or the nested panels
evolve pointwise with targets and description untouched. -/
inductive PanelEvolves : Panel → Panel → Prop where
  | flat : ∀ t tg tg' d d' s r, TargetsFiltered tg tg' → DescAnnotated d d' →
      PanelEvolves (.mk t tg d s r) (.mk t tg' d' s r)
  | nested : ∀ t tg d s s' r, PanelListEvolves s s' →
      PanelEvolves (.mk t tg d (some s) r) (.mk t tg d (some s') r)
/-- Pointwise evolution of panel lists: same length, same order. -/
inductive PanelListEvolves : PanelList → PanelList → Prop where
  | nil : PanelListEvolves .nil .nil
  | cons : ∀ p p' l l', PanelEvolves p p' → PanelListEvolves l l' →
      PanelListEvolves (.cons p l) (.cons p' l')
end

/-- Indeed `fix_panel_targets` only filters the targets and possibly annotates the
description; type, nested panels and all other fields are untouched. -/
theorem fix_panel_targets_evolves (p : Panel) :
    PanelEvolves p (fix_panel_targets p) := by
  match p with
  | .mk t none d s r =>
    exact PanelEvolves.flat t none none d d s r (Or.inl rfl) (Or.inl rfl)
  | .mk t (some ts) d s r =>
    rw [fix_panel_targets]
    by_cases hcond : ((ts.filter targetValid).isEmpty &&
        (t == some "timeseries" || t == some "stat" || t == some "gauge")) = true
    · rw [if_pos hcond]
      exact PanelEvolves.flat t (some ts) (some (ts.filter targetValid)) d
        (some ((d.getD "") ++ emptyPanelNote)) s r
        (Or.inr ⟨ts, ts.filter targetValid, rfl, rfl, ts.filter_sublist⟩)
        (Or.inr rfl)
    · rw [if_neg hcond]
      exact PanelEvolves.flat t (some ts) (some (ts.filter targetValid)) d d s r
        (Or.inr ⟨ts, ts.filter targetValid, rfl, rfl, ts.filter_sublist⟩)
        (Or.inl rfl)

mutual
/-- Indeed `process_panel` changes a panel only in the allowed ways. -/
theorem process_panel_evolves (p : Panel) :
    PanelEvolves p (process_panel p) :=
  match p with
  | .mk t tg d (some s) r => by
    rw [process_panel]
    by_cases hrow : (t == some "row") = true
    · rw [if_pos hrow]
      exact PanelEvolves.nested t tg d s (process_panels s) r
        (process_panels_evolve s)
    · rw [if_neg hrow]
      exact fix_panel_targets_evolves (.mk t tg d (some s) r)
  | .mk t tg d none r => by
    rw [process_panel]
    exact fix_panel_targets_evolves (.mk t tg d none r)
/-- Indeed `process_panels` evolves every panel of the list in place. -/
theorem process_panels_evolve (l : PanelList) :
    PanelListEvolves l (process_panels l) :=
  match l with
  | .nil => PanelListEvolves.nil
  | .cons p l => PanelListEvolves.cons p (process_panel p) l (process_panels l)
      (process_panel_evolves p) (process_panels_evolve l)
end

/-- Indeed `process_panels` keeps the number of top-level panels. -/
theorem process_panels_length (l : PanelList) :
    (process_panels l).length = l.length :=
  match l with
  | .nil => rfl
  | .cons p l => by
    simp [process_panels, PanelList.length, process_panels_length l]

/-- C10: `process_panels` returns a list with exactly as many panels, in the
same order — no panel is removed or reordered — and each panel differs from
its input only by a filtered `targets` list, a possibly annotated
`description`, or, for `row` panels, recursively processed nested `panels`;
`type`, the presence of the nested-panels key, and every other field are
unchanged. -/
theorem claim_C10_process_panels_preserves_structure (l : PanelList) :
    (process_panels l).length = l.length ∧
    PanelListEvolves l (process_panels l) :=
  ⟨process_panels_length l, process_panels_evolve l⟩

end Dashboard

namespace LokiMonitor

/-- C5: for every call to `update_metrics(current_size_bytes)`, the resulting
`usage_percent` gauge equals `100 * current_size_bytes / max_size_bytes`
(the exact quotient, no precision lost on the gauge) when `max_size_bytes`
is positive, and equals 0 when `max_size_bytes` is 0, with no
division-by-zero fault in either case — the function is total and the
zero case is guarded explicitly. -/
theorem claim_C5_usage_percent_gauge (maxBytes : Nat) (writeOk : Bool)
    (m : Metrics) (sizeBytes : Nat) :
    (update_metrics maxBytes writeOk m sizeBytes).1.usagePercent =
      if 0 < maxBytes then 100 * (sizeBytes : ℚ) / (maxBytes : ℚ) else 0 := by
  simp only [update_metrics, usagePercentCalc]
  split
  · ring
  · rfl

/-- C8: every call to `update_metrics` returns normally whether the
metrics-file write succeeds or fails; the four gauges are already set to the
new values in the returned state, and in the event trace the four gauge
writes precede the file-write attempt, whose failure only adds an error log
line. -/
theorem claim_C8_update_metrics_file_failure_contained (maxBytes : Nat)
    (writeOk : Bool) (m : Metrics) (sizeBytes : Nat) :
    (update_metrics maxBytes writeOk m sizeBytes).1.dataSizeBytes = (sizeBytes : ℚ) ∧
    (update_metrics maxBytes writeOk m sizeBytes).1.dataSizeGb = bytes_to_gb sizeBytes ∧
    (update_metrics maxBytes writeOk m sizeBytes).1.maxSizeBytes = (maxBytes : ℚ) ∧
    (update_metrics maxBytes writeOk m sizeBytes).1.usagePercent =
      usagePercentCalc sizeBytes maxBytes ∧
    (update_metrics maxBytes writeOk m sizeBytes).2 =
      [.setGauge "loki_data_size_bytes" (sizeBytes : ℚ),
       .setGauge "loki_data_size_gb" (bytes_to_gb sizeBytes),
       .setGauge "loki_max_size_bytes" (maxBytes : ℚ),
       .setGauge "loki_usage_percent" (usagePercentCalc sizeBytes maxBytes),
       .writeMetricsFile (sizeBytes : ℚ) (bytes_to_gb sizeBytes) (maxBytes : ℚ)
         (usagePercentCalc sizeBytes maxBytes)] ++
      (if writeOk then [.logDebug "Metrics updated"]
       else [.logError "Error saving metrics file"]) := by
  cases writeOk <;> simp [update_metrics]

/-- C3: whenever the health check reports unhealthy, `run_cleanup` returns
false, issues no delete request (no delete window appears in the trace), and
leaves the whole metric state — in particular both cleanup counters —
unchanged. -/
theorem claim_C3_unhealthy_abort (env : CleanupEnv) (m : Metrics)
    (h : is_loki_healthy env.readyResult = false) :
    (trigger_cleanup env m).1 = false ∧
    (trigger_cleanup env m).2.1 = m ∧
    deleteWindows (trigger_cleanup env m).2.2 = [] := by
  simp [trigger_cleanup, h, deleteWindows]

/-- Witness for C3 at a concrete unhealthy environment. -/
theorem claim_C3_unhealthy_abort_witness :
    (trigger_cleanup ⟨.exn, 0, 0, .status 204, .status 200⟩ initMetrics).1 = false ∧
    (trigger_cleanup ⟨.exn, 0, 0, .status 204, .status 200⟩ initMetrics).2.1 = initMetrics ∧
    deleteWindows (trigger_cleanup ⟨.exn, 0, 0, .status 204, .status 200⟩ initMetrics).2.2 = [] :=
  claim_C3_unhealthy_abort ⟨.exn, 0, 0, .status 204, .status 200⟩ initMetrics rfl

/-- C4: with a healthy backend, a delete response with status 200, 202 or 204
makes `run_cleanup` return true and bump the operations counter by exactly 1
with the errors counter unchanged — whatever the compaction request does
(`env.compactResult` is arbitrary) — while any other status or an exception
makes it return false and bump the errors counter by exactly 1 with the
operations counter unchanged. -/
theorem claim_C4_delete_outcome (env : CleanupEnv) (m : Metrics)
    (h : is_loki_healthy env.readyResult = true) :
    (∀ code, env.deleteResult = .status code → acceptableStatus code = true →
      (trigger_cleanup env m).1 = true ∧
      (trigger_cleanup env m).2.1.cleanupOperations = m.cleanupOperations + 1 ∧
      (trigger_cleanup env m).2.1.cleanupErrors = m.cleanupErrors) ∧
    (∀ code, env.deleteResult = .status code → acceptableStatus code = false →
      (trigger_cleanup env m).1 = false ∧
      (trigger_cleanup env m).2.1.cleanupErrors = m.cleanupErrors + 1 ∧
      (trigger_cleanup env m).2.1.cleanupOperations = m.cleanupOperations) ∧
    (env.deleteResult = .exn →
      (trigger_cleanup env m).1 = false ∧
      (trigger_cleanup env m).2.1.cleanupErrors = m.cleanupErrors + 1 ∧
      (trigger_cleanup env m).2.1.cleanupOperations = m.cleanupOperations) := by
  refine ⟨?_, ?_, ?_⟩
  · intro code hdel hacc
    cases hcomp : env.compactResult <;>
      simp [trigger_cleanup, h, hdel, hacc, hcomp]
  · intro code hdel hacc
    simp [trigger_cleanup, h, hdel, hacc]
  · intro hdel
    simp [trigger_cleanup, h, hdel]

/-- C2 counterexample: a cleanup that fires with the two `datetime.now()`
readings one second apart (first reading 0, second reading 1) issues a delete
request whose window is `(start, end) = (1 - 7d, 0 - 3d)`, and
`end - start = 345599 ≠ 4` days — no single common `now` satisfies both
`end = now - 3d` and `start = now - 7d`. -/
theorem claim_C2_window_counterexample :
    deleteWindows (trigger_cleanup ⟨.status 200, 0, 1, .status 200, .status 200⟩
        initMetrics).2.2 = [(1 - 7 * daySec, 0 - 3 * daySec)] ∧
    ¬ ((0 - 3 * daySec) - (1 - 7 * daySec) = 4 * daySec) := by
  constructor
  · rfl
  · decide

/-- C2 as amended: every delete window issued by `run_cleanup` satisfies
`end = tEnd - 3` days and `start = tStart - 7` days, where `tEnd` is the
first clock reading and `tStart` the second; with a monotone clock the window
length is `4 days - (tStart - tEnd) ≤ 4` days, and it is exactly 4 days
precisely when the two readings coincide. -/
theorem claim_C2_window_amended (env : CleanupEnv) (m : Metrics)
    (hmono : env.tEnd ≤ env.tStart) :
    ∀ w ∈ deleteWindows (trigger_cleanup env m).2.2,
      w.2 = env.tEnd - 3 * daySec ∧
      w.1 = env.tStart - 7 * daySec ∧
      w.2 - w.1 = 4 * daySec - (env.tStart - env.tEnd) ∧
      w.2 - w.1 ≤ 4 * daySec ∧
      (env.tStart = env.tEnd → w.2 - w.1 = 4 * daySec) := by
  intro w hw
  have hday : (0 : ℤ) ≤ daySec := by decide
  by_cases h : is_loki_healthy env.readyResult = false
  · simp [trigger_cleanup, h, deleteWindows] at hw
  · have hw' : w = (env.tStart - 7 * daySec, env.tEnd - 3 * daySec) := by
      cases hdel : env.deleteResult with
      | exn => simpa [trigger_cleanup, h, hdel, deleteWindows] using hw
      | status code =>
        by_cases hacc : acceptableStatus code = true
        · cases hcomp : env.compactResult <;>
            simpa [trigger_cleanup, h, hdel, hacc, hcomp, deleteWindows] using hw
        · simp only [Bool.not_eq_true] at hacc
          simpa [trigger_cleanup, h, hdel, hacc, deleteWindows] using hw
    subst hw'
    refine ⟨rfl, rfl, by ring, by omega, fun heq => by rw [heq]; ring⟩

/-- Witness for C2 (amended), with both clock readings equal to 5: the single
issued window has length exactly 4 days. -/
theorem claim_C2_window_amended_witness :
    deleteWindows (trigger_cleanup ⟨.status 200, 5, 5, .status 204, .exn⟩
        initMetrics).2.2 = [(5 - 7 * daySec, 5 - 3 * daySec)] ∧
    (5 - 3 * daySec : ℤ) - (5 - 7 * daySec) = 4 * daySec := by
  have hmem : ((5 - 7 * daySec, 5 - 3 * daySec) : ℤ × ℤ) ∈
      deleteWindows (trigger_cleanup ⟨.status 200, 5, 5, .status 204, .exn⟩
        initMetrics).2.2 := by decide
  have h := claim_C2_window_amended ⟨.status 200, 5, 5, .status 204, .exn⟩
    initMetrics (le_refl 5) _ hmem
  exact ⟨rfl, h.2.2.2.2 rfl⟩

/-- Witness for C4: healthy backend, delete answered 202, compaction raising
an exception; the cleanup still succeeds and counts one operation. -/
theorem claim_C4_delete_outcome_witness :
    (trigger_cleanup ⟨.status 200, 0, 0, .status 202, .exn⟩ initMetrics).1 = true ∧
    (trigger_cleanup ⟨.status 200, 0, 0, .status 202, .exn⟩ initMetrics).2.1.cleanupOperations =
      initMetrics.cleanupOperations + 1 ∧
    (trigger_cleanup ⟨.status 200, 0, 0, .status 202, .exn⟩ initMetrics).2.1.cleanupErrors =
      initMetrics.cleanupErrors :=
  (claim_C4_delete_outcome ⟨.status 200, 0, 0, .status 202, .exn⟩ initMetrics
    rfl).1 202 rfl rfl

/-- C6: completing a traversal of any directory tree yields exactly the sum
of its regular-file sizes; a tree whose traversal finds no regular files
(only subdirectories and non-regular entries) yields 0; and a traversal
error is not raised to the caller — `get_directory_size` is total and
returns 0 in that case. -/
theorem claim_C6_directory_size (t : FSList) :
    get_directory_size (.ok t) = (FSList.fileSizes t).sum ∧
    (FSList.fileSizes t = [] → get_directory_size (.ok t) = 0) ∧
    get_directory_size (.error ()) = 0 :=
  ⟨FSList.totalSize_eq_sum_list t,
   fun h => by simp [get_directory_size, FSList.totalSize_eq_sum_list t, h],
   rfl⟩

/-- A sample tree: files of sizes 100, 200 (inside a subdirectory with a
non-regular sibling) and 7. -/
def sampleTree : FSList :=
  .cons (.file 100)
    (.cons (.dir (.cons (.file 200) (.cons .other .nil)))
      (.cons (.file 7) .nil))

/-- A tree with only subdirectories and non-regular entries. -/
def fileLessTree : FSList :=
  .cons (.dir (.cons .other .nil)) (.cons (.dir .nil) .nil)

/-- Witness for C6: the sample tree sums to 307, the file-less tree and the
failed traversal yield 0. -/
theorem claim_C6_directory_size_witness :
    get_directory_size (.ok sampleTree) = 307 ∧
    get_directory_size (.ok fileLessTree) = 0 ∧
    get_directory_size (.error ()) = 0 := by
  have h1 := claim_C6_directory_size sampleTree
  have h2 := claim_C6_directory_size fileLessTree
  exact ⟨by rw [h1.1]; rfl, h2.2.1 rfl, h1.2.2⟩

/-- C9 counterexample: with `max_size_bytes = 1073741824` (1 GiB) and a
threshold of 33 percent, the stored `threshold_bytes` is the truncation
354334801 and differs from the exact product
`max_size_bytes × 33 / 100 = 354334801.92`. -/
theorem claim_C9_threshold_counterexample :
    ¬ ((thresholdBytesCalc 1073741824 33 : ℚ) = (1073741824 : ℚ) * 33 / 100) := by
  norm_num [thresholdBytesCalc]

/-- One iteration never changes `threshold_bytes` or `max_size_bytes`. -/
theorem monitor_iter_preserves_config (env : IterEnv) (st : MonitorState) :
    (monitor_iter env st).1.thresholdBytes = st.thresholdBytes ∧
    (monitor_iter env st).1.maxSizeBytes = st.maxSizeBytes := by
  unfold monitor_iter
  split
  · exact ⟨rfl, rfl⟩
  · dsimp only
    split <;> exact ⟨rfl, rfl⟩

/-- C9 as amended: `threshold_bytes` is the floor (Python `int` truncation)
of `max_size_bytes × threshold_percent / 100`; it is computed once by
`__init__` from `max_size_bytes`, and neither a single loop iteration nor any
number of loop iterations ever changes `threshold_bytes` or
`max_size_bytes`. -/
theorem claim_C9_threshold_invariant :
    (∀ maxBytes pct : Nat,
      (thresholdBytesCalc maxBytes pct : ℤ) =
        ⌊((maxBytes : ℚ) * (pct : ℚ)) / 100⌋) ∧
    (∀ gb : ℚ, ∀ pct intervalSec : Nat,
      (monitorInit gb pct intervalSec).thresholdBytes =
        thresholdBytesCalc (monitorInit gb pct intervalSec).maxSizeBytes pct) ∧
    (∀ env st, (monitor_iter env st).1.thresholdBytes = st.thresholdBytes ∧
      (monitor_iter env st).1.maxSizeBytes = st.maxSizeBytes) ∧
    (∀ envs st n, (monitor_loop_run envs st n).1.thresholdBytes =
      st.thresholdBytes) := by
  refine ⟨?_, ?_, monitor_iter_preserves_config, ?_⟩
  · intro maxBytes pct
    have h : ((maxBytes : ℚ) * (pct : ℚ)) / 100 =
        ((maxBytes * pct : ℕ) : ℤ) / ((100 : ℕ) : ℚ) := by push_cast; ring
    rw [thresholdBytesCalc, h, Rat.floor_intCast_div_natCast]
    push_cast [Int.ofNat_tdiv]
    rfl
  · intro gb pct intervalSec
    rfl
  · intro envs st n
    induction n with
    | zero => rfl
    | succ k ih =>
      exact (monitor_iter_preserves_config (envs k)
        (monitor_loop_run envs st k).1).1.trans ih

/-- Count `countCleanupCalls` distributes over trace concatenation. -/
theorem countCleanupCalls_append (a b : List Event) :
    countCleanupCalls (a ++ b) = countCleanupCalls a + countCleanupCalls b := by
  simp [countCleanupCalls]

/-- Count `countThresholdWarnings` distributes over trace concatenation. -/
theorem countThresholdWarnings_append (a b : List Event) :
    countThresholdWarnings (a ++ b) =
      countThresholdWarnings a + countThresholdWarnings b := by
  simp [countThresholdWarnings]

/-- An `update_metrics` trace invokes no cleanup and warns of no threshold. -/
theorem update_metrics_trace_counts (maxBytes : Nat) (writeOk : Bool)
    (m : Metrics) (sizeBytes : Nat) :
    countCleanupCalls (update_metrics maxBytes writeOk m sizeBytes).2 = 0 ∧
    countThresholdWarnings (update_metrics maxBytes writeOk m sizeBytes).2 = 0 := by
  cases writeOk <;>
    simp [update_metrics, countCleanupCalls, countThresholdWarnings]

/-- A `trigger_cleanup` trace records no `run_cleanup` invocation marker and
no threshold warning of its own. -/
theorem trigger_cleanup_trace_counts (env : CleanupEnv) (m : Metrics) :
    countCleanupCalls (trigger_cleanup env m).2.2 = 0 ∧
    countThresholdWarnings (trigger_cleanup env m).2.2 = 0 := by
  by_cases h : is_loki_healthy env.readyResult = false
  · simp [trigger_cleanup, h, countCleanupCalls, countThresholdWarnings]
  · cases hdel : env.deleteResult with
    | exn =>
      simp [trigger_cleanup, h, hdel, countCleanupCalls, countThresholdWarnings]
    | status code =>
      by_cases hacc : acceptableStatus code = true
      · cases hcomp : env.compactResult <;>
          simp [trigger_cleanup, h, hdel, hacc, hcomp, countCleanupCalls,
            countThresholdWarnings]
      · simp only [Bool.not_eq_true] at hacc
        simp [trigger_cleanup, h, hdel, hacc, countCleanupCalls,
          countThresholdWarnings]

/-- Each iteration increments the ghost iteration counter by exactly one,
whether or not its body raised. -/
theorem monitor_iter_iterations (env : IterEnv) (st : MonitorState) :
    (monitor_iter env st).1.iterations = st.iterations + 1 := by
  unfold monitor_iter
  split
  · rfl
  · dsimp only
    split <;> rfl

/-- No iteration changes the configured poll interval. -/
theorem monitor_iter_preserves_interval (env : IterEnv) (st : MonitorState) :
    (monitor_iter env st).1.checkIntervalSec = st.checkIntervalSec := by
  unfold monitor_iter
  split
  · rfl
  · dsimp only
    split <;> rfl

/-- Any number of iterations leaves the poll interval unchanged. -/
theorem monitor_loop_run_preserves_interval (envs : Nat → IterEnv)
    (st : MonitorState) (n : Nat) :
    (monitor_loop_run envs st n).1.checkIntervalSec = st.checkIntervalSec := by
  induction n with
  | zero => rfl
  | succ k ih =>
    exact (monitor_iter_preserves_interval (envs k)
      (monitor_loop_run envs st k).1).trans ih

/-- Every iteration's trace ends with the interval sleep: the sleep sits
outside the `try` and runs even when the body raised. -/
theorem monitor_iter_last_event (env : IterEnv) (st : MonitorState) :
    (monitor_iter env st).2.getLast? = some (.sleep st.checkIntervalSec) := by
  unfold monitor_iter
  split
  · rfl
  · dsimp only
    split
    · rw [List.getLast?_append_of_ne_nil _ (List.cons_ne_nil _ _)]
      rfl
    · rw [List.getLast?_append_of_ne_nil _ (List.cons_ne_nil _ _)]
      rfl

/-- C7: after any number of iterations under any environments — including
ones whose body raises — the loop has completed exactly that many
iterations; the current iteration's trace always ends with the interval
sleep; a raising body produces exactly a logged error followed by the
interval sleep; and the loop then completes the next iteration as well. -/
theorem claim_C7_loop_survives_exceptions (envs : Nat → IterEnv)
    (st : MonitorState) (n : Nat) :
    (monitor_loop_run envs st n).1.iterations = st.iterations + n ∧
    (monitor_iter (envs n) (monitor_loop_run envs st n).1).2.getLast? =
      some (.sleep st.checkIntervalSec) ∧
    ((envs n).bodyExn = true →
      (monitor_iter (envs n) (monitor_loop_run envs st n).1).2 =
        [.logError "Error in monitoring loop", .sleep st.checkIntervalSec]) ∧
    (monitor_loop_run envs st (n + 1)).1.iterations = st.iterations + (n + 1) := by
  have hrun : ∀ k, (monitor_loop_run envs st k).1.iterations =
      st.iterations + k := by
    intro k
    induction k with
    | zero => rfl
    | succ j ih =>
      have hstep := monitor_iter_iterations (envs j) (monitor_loop_run envs st j).1
      calc (monitor_loop_run envs st (j + 1)).1.iterations
          = (monitor_iter (envs j) (monitor_loop_run envs st j).1).1.iterations :=
            rfl
        _ = st.iterations + (j + 1) := by omega
  refine ⟨hrun n, ?_, ?_, hrun (n + 1)⟩
  · rw [monitor_iter_last_event, monitor_loop_run_preserves_interval]
  · intro hexn
    rw [show (monitor_iter (envs n) (monitor_loop_run envs st n).1) =
        ({ (monitor_loop_run envs st n).1 with
            iterations := (monitor_loop_run envs st n).1.iterations + 1 },
          [.logError "Error in monitoring loop",
           .sleep (monitor_loop_run envs st n).1.checkIntervalSec]) from by
      unfold monitor_iter; rw [hexn]; simp]
    rw [monitor_loop_run_preserves_interval]

/-- In a non-raising iteration, exactly one cleanup invocation and one
threshold warning occur when the measured size exceeds the threshold, and
none otherwise. -/
theorem monitor_iter_counts (env : IterEnv) (st : MonitorState)
    (hbody : env.bodyExn = false) :
    countCleanupCalls (monitor_iter env st).2 =
      (if st.thresholdBytes < get_directory_size env.sizeResult then 1 else 0) ∧
    countThresholdWarnings (monitor_iter env st).2 =
      (if st.thresholdBytes < get_directory_size env.sizeResult then 1 else 0) := by
  have hu := update_metrics_trace_counts st.maxSizeBytes env.writeOk st.metrics
    (get_directory_size env.sizeResult)
  have ht := trigger_cleanup_trace_counts env.cleanupEnv
    (update_metrics st.maxSizeBytes env.writeOk st.metrics
      (get_directory_size env.sizeResult)).1
  by_cases hcond : st.thresholdBytes < get_directory_size env.sizeResult
  · rw [if_pos hcond]
    have hT : (monitor_iter env st).2 =
        [Event.logInfo "Current size"] ++
          (update_metrics st.maxSizeBytes env.writeOk st.metrics
            (get_directory_size env.sizeResult)).2 ++
          [Event.logWarning "Storage threshold exceeded",
           Event.runCleanupCall] ++
          (trigger_cleanup env.cleanupEnv
            (update_metrics st.maxSizeBytes env.writeOk st.metrics
              (get_directory_size env.sizeResult)).1).2.2 ++
          (if (trigger_cleanup env.cleanupEnv
              (update_metrics st.maxSizeBytes env.writeOk st.metrics
                (get_directory_size env.sizeResult)).1).1 then
            [Event.logInfo "Cleanup completed successfully", Event.sleep 60]
           else [Event.logError "Cleanup failed"]) ++
          [Event.sleep st.checkIntervalSec] := by
      simp [monitor_iter, hbody, hcond]
    rw [hT]
    simp only [countCleanupCalls_append, countThresholdWarnings_append,
      hu.1, hu.2, ht.1, ht.2]
    cases hres : (trigger_cleanup env.cleanupEnv
        (update_metrics st.maxSizeBytes env.writeOk st.metrics
          (get_directory_size env.sizeResult)).1).1 <;>
      exact ⟨by simp [hres, countCleanupCalls],
             by simp [hres, countThresholdWarnings]⟩
  · rw [if_neg hcond]
    have hT : (monitor_iter env st).2 =
        [Event.logInfo "Current size"] ++
          (update_metrics st.maxSizeBytes env.writeOk st.metrics
            (get_directory_size env.sizeResult)).2 ++
          [Event.logInfo "Storage usage within acceptable limits",
           Event.sleep st.checkIntervalSec] := by
      simp [monitor_iter, hbody, hcond]
    rw [hT]
    simp only [countCleanupCalls_append, countThresholdWarnings_append,
      hu.1, hu.2]
    exact ⟨by simp [countCleanupCalls], by simp [countThresholdWarnings]⟩

/-- 1 GB expressed in bytes: `int(1 * 1024**3)`. -/
theorem maxSizeBytesCalc_one : maxSizeBytesCalc 1 = 1073741824 := by
  rw [maxSizeBytesCalc,
    show ((1 : ℚ) * (1024 * 1024 * 1024)) = ((1073741824 : ℤ) : ℚ) by norm_num,
    Int.floor_intCast]
  rfl

/-- The stored threshold of the 1 GB / 80% configuration. -/
theorem monitorInit_one_threshold :
    (monitorInit 1 80 300).thresholdBytes = 858993459 := by
  show thresholdBytesCalc (maxSizeBytesCalc 1) 80 = 858993459
  rw [maxSizeBytesCalc_one]
  decide

/-- C1: with `max_size = 1 GB` and an 80% threshold the stored
`threshold_bytes` is 858993459; in one non-raising iteration whose measured
size strictly exceeds it (e.g. 900 MB) the loop logs exactly one
threshold-exceeded warning and invokes `run_cleanup` exactly once, and in one
whose measured size is at or below it (e.g. 700 MB) `run_cleanup` is never
invoked. -/
theorem claim_C1_threshold_gates_cleanup (env : IterEnv) (st : MonitorState)
    (hth : st.thresholdBytes = 858993459) (hbody : env.bodyExn = false) :
    thresholdBytesCalc (maxSizeBytesCalc 1) 80 = 858993459 ∧
    (858993459 < get_directory_size env.sizeResult →
      countCleanupCalls (monitor_iter env st).2 = 1 ∧
      countThresholdWarnings (monitor_iter env st).2 = 1) ∧
    (get_directory_size env.sizeResult ≤ 858993459 →
      countCleanupCalls (monitor_iter env st).2 = 0) := by
  have h := monitor_iter_counts env st hbody
  refine ⟨by rw [maxSizeBytesCalc_one]; decide, ?_, ?_⟩
  · intro hgt
    have hcond : st.thresholdBytes < get_directory_size env.sizeResult := by
      omega
    exact ⟨by rw [h.1, if_pos hcond], by rw [h.2, if_pos hcond]⟩
  · intro hle
    have hcond : ¬ st.thresholdBytes < get_directory_size env.sizeResult := by
      omega
    rw [h.1, if_neg hcond]

/-- A healthy cleanup environment for the C1 witness. -/
def healthyCleanupEnv : CleanupEnv := ⟨.status 200, 0, 0, .status 200, .status 200⟩

/-- Iteration environment measuring a single 900 MB file. -/
def iterEnv900 : IterEnv :=
  ⟨false, .ok (.cons (.file 943718400) .nil), true, healthyCleanupEnv⟩

/-- Iteration environment measuring a single 700 MB file. -/
def iterEnv700 : IterEnv :=
  ⟨false, .ok (.cons (.file 734003200) .nil), true, healthyCleanupEnv⟩

/-- Witness for C1 on the 1 GB / 80% configuration: the 900 MB directory
triggers exactly one warning and one cleanup, the 700 MB one triggers
none. -/
theorem claim_C1_threshold_gates_cleanup_witness :
    countCleanupCalls (monitor_iter iterEnv900 (monitorInit 1 80 300)).2 = 1 ∧
    countThresholdWarnings (monitor_iter iterEnv900 (monitorInit 1 80 300)).2 = 1 ∧
    countCleanupCalls (monitor_iter iterEnv700 (monitorInit 1 80 300)).2 = 0 := by
  have h9 := claim_C1_threshold_gates_cleanup iterEnv900 (monitorInit 1 80 300)
    monitorInit_one_threshold rfl
  have h7 := claim_C1_threshold_gates_cleanup iterEnv700 (monitorInit 1 80 300)
    monitorInit_one_threshold rfl
  exact ⟨(h9.2.1 (by decide)).1, (h9.2.1 (by decide)).2, h7.2.2 (by decide)⟩

/-- An iteration environment whose body raises. -/
def exnIterEnv : IterEnv :=
  ⟨true, .error (), true, ⟨.exn, 0, 0, .exn, .exn⟩⟩

/-- Witness for C7: three iterations whose bodies all raise still complete,
and the raising iteration logs the error and sleeps the 300s interval. -/
theorem claim_C7_loop_survives_exceptions_witness :
    (monitor_loop_run (fun _ => exnIterEnv) (monitorInit 1 80 300) 3).1.iterations =
      0 + 3 ∧
    (monitor_iter exnIterEnv
      (monitor_loop_run (fun _ => exnIterEnv) (monitorInit 1 80 300) 2).1).2 =
      [.logError "Error in monitoring loop", .sleep 300] := by
  have h := claim_C7_loop_survives_exceptions (fun _ => exnIterEnv)
    (monitorInit 1 80 300) 2
  exact ⟨by simpa using h.2.2.2, by simpa using h.2.2.1 rfl⟩

end LokiMonitor
